import Mathlib

/-!
Verification development for the constrained chemical-equilibrium core invoked
by the tutorial script `tutorials/work-in-progress/Fe-O-H_system_failed_1.py`.
The repository ships only the calling script; the core (ChemicalSystem,
EquilibriumSpecs, EquilibriumConditions, ChemicalState, EquilibriumSolver) is
therefore modelled from the specification, with numeric values embedded as
rationals. All definitions are executable so claims can be evaluated on
concrete inputs.
-/

/-- Error taxonomy of the core, modelled from the spec: ConfigurationError for
malformed specs/conditions, UnitError for unsupported unit strings,
NotFoundError for unknown species names, NumericalError for failures inside a
Newton iteration. -/
inductive RktError where
  | configurationError (msg : String)
  | unitError (msg : String)
  | notFoundError (msg : String)
  | numericalError (msg : String)
deriving DecidableEq

/-- Modelled from the spec: a species has a name, an owning phase, an
elemental-formula vector (element name to stoichiometric count), an electrical
charge and a molar mass (grams per mole). Immutable once constructed. -/
structure Species where
  name : String
  phase : String
  formula : List (String × ℚ)
  charge : ℚ
  molarMass : ℚ
deriving DecidableEq

/-- Stoichiometric coefficient of element `e` in the species formula. -/
def Species.coeff (sp : Species) (e : String) : ℚ :=
  match sp.formula.lookup e with
  | some c => c
  | none => 0

/-- Modelled from the spec: immutable description of all species and the global
element list; the stoichiometric matrix is given by `Species.coeff` applied to
the element list (rows) and the species list (columns). -/
structure ChemicalSystem where
  species : List Species
  elements : List String
deriving DecidableEq

/-- Index lookup by species name, `none` for unknown names (the basis of the
`NotFoundError` behaviour). -/
def ChemicalSystem.index (sys : ChemicalSystem) (name : String) : Option Nat :=
  sys.species.findIdx? (fun sp => sp.name == name)

/-- Modelled from the spec: mutable snapshot of per-species amounts (in moles,
positionally matching the system species list), temperature and pressure. -/
structure ChemicalState where
  n : List ℚ
  T : ℚ
  P : ℚ
deriving DecidableEq

/-- Fresh state: all amounts zero, ambient temperature and pressure. -/
def ChemicalState.init (sys : ChemicalSystem) : ChemicalState :=
  ⟨List.replicate sys.species.length 0, 298.15, 100000⟩

/-- Unit conversion for amount inputs, modelled from the spec: the external
unit-conversion collaborator converts "mol", "kg" and "g" to moles using the
species molar mass; unsupported strings surface as `UnitError`. -/
def amountToMoles (molarMass : ℚ) (unit : String) (amount : ℚ) :
    Except RktError ℚ :=
  if unit = "mol" then .ok amount
  else if unit = "kg" then .ok (amount * 1000 / molarMass)
  else if unit = "g" then .ok (amount / molarMass)
  else .error (.unitError unit)

/-- Modelled from the spec: `add(speciesName, amount, unit)` converts `amount`
to moles using the species molar mass and adds to the existing amount; unknown
names fail with `NotFoundError` and negative resulting amounts are rejected. -/
def ChemicalState.add (sys : ChemicalSystem) (st : ChemicalState) (name : String)
    (amount : ℚ) (unit : String) : Except RktError ChemicalState :=
  match sys.index name with
  | none => .error (.notFoundError name)
  | some i =>
    match sys.species.get? i with
    | none => .error (.notFoundError name)
    | some sp =>
      match amountToMoles sp.molarMass unit amount with
      | .error e => .error e
      | .ok m =>
        let amt := st.n.getD i 0 + m
        if amt < 0 then .error (.configurationError "NegativeAmount")
        else .ok ⟨st.n.set i amt, st.T, st.P⟩

/-- Total amount of element `e` in a state: the row of the stoichiometric
matrix for `e` applied to the species-amount vector. -/
def elementTotal (sys : ChemicalSystem) (st : ChemicalState) (e : String) : ℚ :=
  (List.zip sys.species st.n).foldr (fun p acc => p.1.coeff e * p.2 + acc) 0

/-- Modelled from the spec: the closed set of constraint kinds that
EquilibriumSpecs can declare. -/
inductive ConstraintKind where
  | temperature
  | pressure
  | fugacity (species : String)
  | chemicalPotential (species : String)
  | pH
  | chargeBalance
  | custom (name : String)
deriving DecidableEq

/-- Number of intensive variables (T, P) left free because no spec fixes them. -/
def freeIntensiveCount (ks : List ConstraintKind) : Nat :=
  (if ConstraintKind.temperature ∈ ks then 0 else 1) +
  (if ConstraintKind.pressure ∈ ks then 0 else 1)

/-- Modelled from the spec: unknown count = species amounts + Lagrange
multipliers (one per element) + free T/P if not fixed. -/
def unknownCount (sys : ChemicalSystem) (ks : List ConstraintKind) : Nat :=
  sys.species.length + sys.elements.length + freeIntensiveCount ks

/-- Modelled from the spec: equation count = declared constraints + implicit
mass-balance equations (one per element). -/
def equationCount (sys : ChemicalSystem) (ks : List ConstraintKind) : Nat :=
  ks.length + sys.elements.length

/-- Modelled from the spec: ordered list of declared constraint descriptors,
immutable once built from a ChemicalSystem. -/
structure EquilibriumSpecs where
  system : ChemicalSystem
  kinds : List ConstraintKind
deriving DecidableEq

/-- Construction-time validation, modelled from the spec: rejects duplicate
constraint kinds, and rejects a spec set whose equation count does not exactly
match the unknown count, raising ConfigurationError("OverOrUnderDetermined")
rather than deferring the failure to solve time. -/
def EquilibriumSpecs.build (sys : ChemicalSystem) (ks : List ConstraintKind) :
    Except RktError EquilibriumSpecs :=
  if ¬ ks.Nodup then .error (.configurationError "DuplicateConstraint")
  else if equationCount sys ks ≠ unknownCount sys ks then
    .error (.configurationError "OverOrUnderDetermined")
  else .ok ⟨sys, ks⟩

/-- Modelled from the spec: one numeric `(value, unit)` pair per declared spec,
bound positionally in the same order as the declared kinds. -/
structure EquilibriumConditions where
  specs : EquilibriumSpecs
  bound : List (ℚ × String)
deriving DecidableEq

/-- Fresh conditions with no value bound yet. -/
def EquilibriumConditions.init (specs : EquilibriumSpecs) : EquilibriumConditions :=
  ⟨specs, []⟩

/-- Next declared spec still awaiting a value, in declaration order. -/
def EquilibriumConditions.nextKind (c : EquilibriumConditions) : Option ConstraintKind :=
  c.specs.kinds.get? c.bound.length

/-- Record one more bound `(value, unit)` pair. -/
def EquilibriumConditions.pushBound (c : EquilibriumConditions) (v : ℚ) (u : String) :
    EquilibriumConditions :=
  ⟨c.specs, c.bound ++ [(v, u)]⟩

/-- Temperature setter, modelled from the spec: explicit unit string, eager
validation of absolute temperature > 0, positional binding. -/
def EquilibriumConditions.temperature (c : EquilibriumConditions) (v : ℚ)
    (unit : String) : Except RktError EquilibriumConditions :=
  if v ≤ 0 then .error (.configurationError "NonpositiveTemperature")
  else if ¬ (unit = "kelvin" ∨ unit = "K") then .error (.unitError unit)
  else
    match c.nextKind with
    | some .temperature => .ok (c.pushBound v unit)
    | _ => .error (.configurationError "UnexpectedTemperatureCondition")

/-- Pressure setter, modelled from the spec: explicit unit string, eager
validation of pressure > 0, positional binding. -/
def EquilibriumConditions.pressure (c : EquilibriumConditions) (v : ℚ)
    (unit : String) : Except RktError EquilibriumConditions :=
  if v ≤ 0 then .error (.configurationError "NonpositivePressure")
  else if ¬ (unit = "Pa" ∨ unit = "bar") then .error (.unitError unit)
  else
    match c.nextKind with
    | some .pressure => .ok (c.pushBound v unit)
    | _ => .error (.configurationError "UnexpectedPressureCondition")

/-- Fugacity setter, modelled from the spec: the public interface takes the gas
species name and a value with an optional unit defaulting to "bar"; any value
that is not a (finite) positive number raises ConfigurationError at bind time,
before any solver iteration can run. -/
def EquilibriumConditions.fugacity (c : EquilibriumConditions) (name : String)
    (v : ℚ) (unit : Option String) : Except RktError EquilibriumConditions :=
  if v ≤ 0 then .error (.configurationError "NonpositiveFugacity")
  else
    let u := unit.getD "bar"
    if ¬ (u = "bar" ∨ u = "Pa" ∨ u = "atm") then .error (.unitError u)
    else
      match c.nextKind with
      | some (.fugacity s) =>
        if s = name then .ok (c.pushBound v u)
        else .error (.configurationError "UnexpectedFugacityCondition")
      | _ => .error (.configurationError "UnexpectedFugacityCondition")

/-- pH setter, modelled from the spec: the public interface takes a bare value;
pH is dimensionless, so the optional unit defaults to the empty unit. -/
def EquilibriumConditions.pH (c : EquilibriumConditions) (v : ℚ)
    (unit : Option String) : Except RktError EquilibriumConditions :=
  let u := unit.getD ""
  if u ≠ "" then .error (.unitError u)
  else
    match c.nextKind with
    | some .pH => .ok (c.pushBound v u)
    | _ => .error (.configurationError "UnexpectedPhCondition")

/-- Modelled from the spec: result record of one solve call — converged flag,
iteration count, final residual norm, optional diagnostic message. -/
structure EquilibriumResult where
  succeeded : Bool
  iterations : Nat
  residual : ℚ
  diagnostics : String
deriving DecidableEq

/-- Modelled from the spec: the solver owns the specs, an injected Newton step
(which evaluates the external ThermodynamicModel and may fail numerically), an
injected residual for the non-mass-balance equations (KKT stationarity and the
spec constraint residuals, which need the ThermodynamicModel), a tolerance and
an iteration budget. -/
structure EquilibriumSolver where
  specs : EquilibriumSpecs
  step : EquilibriumConditions → ChemicalState → Except String ChemicalState
  specResid : EquilibriumConditions → ChemicalState → ℚ
  tol : ℚ
  maxIters : Nat

/-- Mass-balance residual norm (max-norm over elements) of state `s` relative
to the element totals fixed from the initial state `s0`. -/
def massBalanceResidual (sys : ChemicalSystem) (s0 s : ChemicalState) : ℚ :=
  sys.elements.foldr
    (fun e acc => max |elementTotal sys s e - elementTotal sys s0 e| acc) 0

/-- Combined residual norm of the Newton system: mass-balance part plus the
injected stationarity/spec-constraint part. -/
def combinedResid (solver : EquilibriumSolver) (conds : EquilibriumConditions)
    (s0 s : ChemicalState) : ℚ :=
  max (massBalanceResidual solver.specs.system s0 s) (solver.specResid conds s)

/-- Damped Newton iteration, modelled from the spec: stop with success when the
residual norm falls below tolerance, report failure (not an exception) when the
iteration budget is exhausted, and abort with `NumericalError` — returning the
last valid iterate untouched — when a step fails numerically. -/
def newtonLoop (step : ChemicalState → Except String ChemicalState)
    (resid : ChemicalState → ℚ) (tol : ℚ) :
    Nat → ChemicalState → Nat → Except RktError EquilibriumResult × ChemicalState
  | 0, s, k => (.ok ⟨false, k, resid s, "iteration budget exhausted"⟩, s)
  | fuel + 1, s, k =>
    if resid s ≤ tol then (.ok ⟨true, k, resid s, ""⟩, s)
    else
      match step s with
      | .error msg => (.error (.numericalError msg), s)
      | .ok sNext => newtonLoop step resid tol fuel sNext (k + 1)

/-- Sequence of Newton iterates from a starting state; `none` once a step has
failed numerically. -/
def iterates (step : ChemicalState → Except String ChemicalState)
    (s : ChemicalState) : Nat → Option ChemicalState
  | 0 => some s
  | k + 1 =>
    match step s with
    | .error _ => none
    | .ok sNext => iterates step sNext k

/-- Modelled from the spec: `solve(state, conditions)` checks that every
declared spec received a value, fixes the mass-balance right-hand side from the
initial state's element totals, and runs the Newton loop. It returns an
`EquilibriumResult` (or the declared `NumericalError`) together with the final
state — the converged state, or the last valid iterate. -/
def EquilibriumSolver.solve (solver : EquilibriumSolver) (state : ChemicalState)
    (conds : EquilibriumConditions) :
    Except RktError EquilibriumResult × ChemicalState :=
  if conds.bound.length ≠ conds.specs.kinds.length then
    (.error (.configurationError "UnboundCondition"), state)
  else
    newtonLoop (solver.step conds) (combinedResid solver conds state)
      solver.tol solver.maxIters state 0

/-! Constants computed by the tutorial script. The fugacity value is the
script's literal arithmetic `10*-49.38775510204081`, a multiplication. -/

/-- Temperature set by the script, 210 celsius in kelvin. -/
def scriptT : ℚ := 210 + 273.15

/-- pH value set by the script. -/
def scriptPH : ℚ := 2.408163265306123

/-- Fugacity value computed by the script: a product, hence negative. -/
def scriptFO2 : ℚ := 10 * (-49.38775510204081)

/-- The eleven species of the script's Fe-O-H system. -/
def scriptSpecies : List Species :=
  [⟨"H2O@", "AqueousPhase", [("H", 2), ("O", 1)], 0, 18.015⟩,
   ⟨"O2@", "AqueousPhase", [("O", 2)], 0, 31.998⟩,
   ⟨"H2@", "AqueousPhase", [("H", 2)], 0, 2.016⟩,
   ⟨"H+", "AqueousPhase", [("H", 1)], 1, 1.008⟩,
   ⟨"OH-", "AqueousPhase", [("O", 1), ("H", 1)], -1, 17.007⟩,
   ⟨"Fe+2", "AqueousPhase", [("Fe", 1)], 2, 55.845⟩,
   ⟨"Magnetite", "MineralPhase", [("Fe", 3), ("O", 4)], 0, 231.533⟩,
   ⟨"Hematite", "MineralPhase", [("Fe", 2), ("O", 3)], 0, 159.688⟩,
   ⟨"H2O(g)", "GaseousPhase", [("H", 2), ("O", 1)], 0, 18.015⟩,
   ⟨"O2(g)", "GaseousPhase", [("O", 2)], 0, 31.998⟩,
   ⟨"H2(g)", "GaseousPhase", [("H", 2)], 0, 2.016⟩]

/-- The script's chemical system. -/
def scriptSystem : ChemicalSystem := ⟨scriptSpecies, ["H", "O", "Fe"]⟩

/-- The script's constraint declarations, in declaration order. -/
def scriptKinds : List ConstraintKind :=
  [.temperature, .pressure, .fugacity "O2(g)", .pH]

/-! Concrete fixtures used to evaluate the claims on closed inputs. -/

/-- Small two-species system whose spec set below is well determined. -/
def sysW : ChemicalSystem :=
  ⟨[⟨"H2O@", "AqueousPhase", [("H", 2), ("O", 1)], 0, 18.015⟩,
    ⟨"H2(g)", "GaseousPhase", [("H", 2)], 0, 2.016⟩], ["H", "O"]⟩

/-- Fixed-temperature, fixed-pressure spec set for `sysW`. -/
def kindsW : List ConstraintKind := [.temperature, .pressure]

/-- Specs for `sysW`; passes construction validation. -/
def specsW : EquilibriumSpecs := ⟨sysW, kindsW⟩

/-- Fully bound conditions for `specsW`. -/
def condsW : EquilibriumConditions :=
  ⟨specsW, [(483.15, "kelvin"), (1906000, "Pa")]⟩

/-- Initial state for the small system. -/
def s0W : ChemicalState := ChemicalState.init sysW

/-- Step that leaves the state unchanged and always succeeds. -/
def stepId : EquilibriumConditions → ChemicalState → Except String ChemicalState :=
  fun _ s => .ok s

/-- Step that always fails numerically. -/
def stepFail : EquilibriumConditions → ChemicalState → Except String ChemicalState :=
  fun _ _ => .error "IllConditioned"

/-- Injected stationarity residual that is identically zero. -/
def residZero : EquilibriumConditions → ChemicalState → ℚ := fun _ _ => 0

/-- Injected stationarity residual that is identically one. -/
def residOne : EquilibriumConditions → ChemicalState → ℚ := fun _ _ => 1

/-- Solver that converges immediately on `s0W`. -/
def solverConv : EquilibriumSolver := ⟨specsW, stepId, residZero, 0, 1⟩

/-- Solver with a zero iteration budget and a residual stuck above tolerance. -/
def solverStuck : EquilibriumSolver := ⟨specsW, stepId, residOne, 0, 0⟩

/-- Solver whose very first Newton step fails numerically. -/
def solverAbort : EquilibriumSolver := ⟨specsW, stepFail, residOne, 0, 1⟩

/-- Specs mirroring the script's four constraint kinds over a four-species
system, so that the spec set is well determined. -/
def specsW4 : EquilibriumSpecs :=
  ⟨⟨[⟨"H2O@", "AqueousPhase", [("H", 2), ("O", 1)], 0, 18.015⟩,
     ⟨"H+", "AqueousPhase", [("H", 1)], 1, 1.008⟩,
     ⟨"Magnetite", "MineralPhase", [("Fe", 3), ("O", 4)], 0, 231.533⟩,
     ⟨"O2(g)", "GaseousPhase", [("O", 2)], 0, 31.998⟩], ["H", "O", "Fe"]⟩,
   scriptKinds⟩

/-- Conditions on `specsW4` with temperature and pressure bound: the next
pending spec is the fugacity constraint. -/
def condsW4f : EquilibriumConditions :=
  ⟨specsW4, [(483.15, "kelvin"), (1906000, "Pa")]⟩

/-- Conditions on `specsW4` with three values bound: the next pending spec is
the pH constraint. -/
def condsW4p : EquilibriumConditions :=
  ⟨specsW4, [(483.15, "kelvin"), (1906000, "Pa"), (1 / 100000, "bar")]⟩

/-! Helper lemmas. -/

/-- Folding max over absolute values dominates each member's value. -/
theorem foldr_max_mem_le (f : String → ℚ) :
    ∀ (l : List String) (e : String), e ∈ l →
      f e ≤ l.foldr (fun x acc => max (f x) acc) 0 := by
  intro l
  induction l with
  | nil => intro e he; cases he
  | cons x xs ih =>
    intro e he
    rcases List.mem_cons.mp he with h | h
    · subst h; exact le_max_left _ _
    · exact le_trans (ih e h) (le_max_right _ _)

/-- Folding max over a pointwise-zero function yields zero. -/
theorem foldr_max_zero (f : String → ℚ) (hf : ∀ e, f e = 0) :
    ∀ l : List String, l.foldr (fun x acc => max (f x) acc) 0 = 0 := by
  intro l
  induction l with
  | nil => rfl
  | cons x xs ih => simp [List.foldr, hf x, ih]

/-- The mass-balance residual of a state relative to itself vanishes. -/
theorem massBalanceResidual_self (sys : ChemicalSystem) (s : ChemicalState) :
    massBalanceResidual sys s s = 0 := by
  unfold massBalanceResidual
  exact foldr_max_zero (fun e => |elementTotal sys s e - elementTotal sys s e|)
    (fun e => by simp) sys.elements

/-- Each element's mass-balance defect is bounded by the residual norm. -/
theorem elementDefect_le_massBalanceResidual (sys : ChemicalSystem)
    (s0 s : ChemicalState) (e : String) (he : e ∈ sys.elements) :
    |elementTotal sys s e - elementTotal sys s0 e| ≤ massBalanceResidual sys s0 s := by
  unfold massBalanceResidual
  exact foldr_max_mem_le (fun x => |elementTotal sys s x - elementTotal sys s0 x|)
    sys.elements e he

/-- Inversion of the Newton loop on an ok outcome: either it converged, with
the reported residual equal to the final state's residual and below tolerance
and empty diagnostics, or the iteration budget ran out and the failure is
reported through the flag and diagnostics. -/
theorem newtonLoop_ok (step : ChemicalState → Except String ChemicalState)
    (resid : ChemicalState → ℚ) (tol : ℚ) :
    ∀ (fuel : Nat) (s : ChemicalState) (k : Nat) (r : EquilibriumResult)
      (sF : ChemicalState),
      newtonLoop step resid tol fuel s k = (.ok r, sF) →
      (r.succeeded = true ∧ r.residual = resid sF ∧ resid sF ≤ tol ∧
        r.diagnostics = "") ∨
      (r.succeeded = false ∧ r.diagnostics = "iteration budget exhausted") := by
  intro fuel
  induction fuel with
  | zero =>
    intro s k r sF h
    simp only [newtonLoop, Prod.mk.injEq, Except.ok.injEq] at h
    right
    rw [← h.1]
    exact ⟨rfl, rfl⟩
  | succ fuel ih =>
    intro s k r sF h
    simp only [newtonLoop] at h
    by_cases hc : resid s ≤ tol
    · rw [if_pos hc] at h
      simp only [Prod.mk.injEq, Except.ok.injEq] at h
      left
      rw [← h.1, ← h.2]
      exact ⟨rfl, rfl, hc, rfl⟩
    · rw [if_neg hc] at h
      cases hs : step s with
      | error msg => rw [hs] at h; simp at h
      | ok sNext => rw [hs] at h; exact ih sNext (k + 1) r sF h

/-- Inversion of the Newton loop on an error outcome: only the declared
numerical failure can occur, and the returned state is a genuine iterate — the
last one at which every preceding step succeeded — with the failing step
leaving it untouched. -/
theorem newtonLoop_error (step : ChemicalState → Except String ChemicalState)
    (resid : ChemicalState → ℚ) (tol : ℚ) :
    ∀ (fuel : Nat) (s : ChemicalState) (k : Nat) (e : RktError)
      (sF : ChemicalState),
      newtonLoop step resid tol fuel s k = (.error e, sF) →
      ∃ m, e = RktError.numericalError m ∧
        ∃ j, j ≤ fuel ∧ iterates step s j = some sF ∧ step sF = .error m := by
  intro fuel
  induction fuel with
  | zero =>
    intro s k e sF h
    simp [newtonLoop] at h
  | succ fuel ih =>
    intro s k e sF h
    simp only [newtonLoop] at h
    by_cases hc : resid s ≤ tol
    · rw [if_pos hc] at h; simp at h
    · rw [if_neg hc] at h
      cases hs : step s with
      | error msg =>
        rw [hs] at h
        simp only [Prod.mk.injEq, Except.error.injEq] at h
        refine ⟨msg, h.1.symm, 0, Nat.zero_le _, ?_, ?_⟩
        · rw [iterates, ← h.2]
        · rw [← h.2, hs]
      | ok sNext =>
        rw [hs] at h
        obtain ⟨m, hm, j, hj, hit, hstep⟩ := ih sNext (k + 1) e sF h
        refine ⟨m, hm, j + 1, Nat.succ_le_succ hj, ?_, hstep⟩
        rw [iterates, hs]
        exact hit

/-- When every iterate reachable within the budget stays above tolerance and
every step succeeds, the loop burns the whole budget and reports the failure
through the flag and diagnostics, never through an exception. -/
theorem newtonLoop_exhaust (step : ChemicalState → Except String ChemicalState)
    (resid : ChemicalState → ℚ) (tol : ℚ) :
    ∀ (fuel : Nat) (s : ChemicalState) (k : Nat),
      (∀ j, j ≤ fuel → ∃ t, iterates step s j = some t ∧ tol < resid t) →
      ∃ sF, iterates step s fuel = some sF ∧
        newtonLoop step resid tol fuel s k =
          (.ok ⟨false, k + fuel, resid sF, "iteration budget exhausted"⟩, sF) := by
  intro fuel
  induction fuel with
  | zero =>
    intro s k _
    exact ⟨s, rfl, by simp [newtonLoop]⟩
  | succ fuel ih =>
    intro s k H
    obtain ⟨t0, ht0, hres0⟩ := H 0 (Nat.zero_le _)
    rw [iterates] at ht0
    obtain rfl : s = t0 := by injection ht0
    obtain ⟨t1, ht1, _⟩ := H 1 (Nat.succ_le_succ (Nat.zero_le _))
    cases hs : step s with
    | error msg =>
      rw [iterates, hs] at ht1
      simp at ht1
    | ok sNext =>
      have H2 : ∀ j, j ≤ fuel → ∃ t, iterates step sNext j = some t ∧ tol < resid t := by
        intro j hj
        obtain ⟨t, hit, hr⟩ := H (j + 1) (Nat.succ_le_succ hj)
        rw [iterates, hs] at hit
        exact ⟨t, hit, hr⟩
      obtain ⟨sF, hitF, hloop⟩ := ih sNext (k + 1) H2
      refine ⟨sF, ?_, ?_⟩
      · rw [iterates, hs]; exact hitF
      · simp only [newtonLoop, if_neg (not_le.mpr hres0), hs, hloop]
        have : k + 1 + fuel = k + (fuel + 1) := by omega
        rw [this]

/-- With budget remaining, a state already below tolerance converges at once:
the loop returns success without taking a step. -/
theorem newtonLoop_conv (step : ChemicalState → Except String ChemicalState)
    (resid : ChemicalState → ℚ) (tol : ℚ) (fuel : Nat) (s : ChemicalState)
    (k : Nat) (h : resid s ≤ tol) :
    newtonLoop step resid tol (fuel + 1) s k = (.ok ⟨true, k, resid s, ""⟩, s) := by
  simp [newtonLoop, h]

/-! Claim theorems. -/

/-- C1: every fugacity value bound via `EquilibriumConditions.fugacity` that is
not a (finite) positive number — such as the script's negative
`fO2 = 10*-49.38775510204081` — is rejected with a `ConfigurationError` at bind
time, by the setter itself, before any solver iteration can run. -/
theorem fugacity_rejects_nonpositive (c : EquilibriumConditions) (name : String)
    (v : ℚ) (unit : Option String) (hv : v ≤ 0) :
    EquilibriumConditions.fugacity c name v unit =
      .error (.configurationError "NonpositiveFugacity") := by
  unfold EquilibriumConditions.fugacity
  rw [if_pos hv]

/-- Witness for C1 at the script's own fugacity value, bound at the script's
binding position (temperature and pressure already bound). -/
theorem fugacity_rejects_nonpositive_witness :
    scriptFO2 ≤ 0 ∧
    EquilibriumConditions.fugacity condsW4f "O2(g)" scriptFO2 none =
      .error (.configurationError "NonpositiveFugacity") :=
  ⟨by norm_num [scriptFO2],
   fugacity_rejects_nonpositive condsW4f "O2(g)" scriptFO2 none
     (by norm_num [scriptFO2])⟩

/-- C5: a spec set whose explicit constraint count plus mass-balance count does
not equal the unknown count is rejected with a `ConfigurationError` at
EquilibriumSpecs construction; no `EquilibriumSpecs` value is produced, so the
failure cannot be deferred to solve time. -/
theorem specs_mismatch_rejected (sys : ChemicalSystem) (ks : List ConstraintKind)
    (h : equationCount sys ks ≠ unknownCount sys ks) :
    ∃ msg, EquilibriumSpecs.build sys ks = .error (.configurationError msg) := by
  unfold EquilibriumSpecs.build
  by_cases hd : ks.Nodup
  · exact ⟨"OverOrUnderDetermined", by rw [if_neg (not_not_intro hd), if_pos h]⟩
  · exact ⟨"DuplicateConstraint", by rw [if_pos hd]⟩

/-- Witness for C5 on the script's own configuration: eleven species with four
declared constraints is not well determined under the spec's counting rule. -/
theorem specs_mismatch_rejected_witness :
    equationCount scriptSystem scriptKinds ≠ unknownCount scriptSystem scriptKinds ∧
    ∃ msg, EquilibriumSpecs.build scriptSystem scriptKinds =
      .error (.configurationError msg) :=
  ⟨by decide, specs_mismatch_rejected scriptSystem scriptKinds (by decide)⟩

/-- C9: `solve` is deterministic — two runs with the same solver (system,
specs, injected model), the same bound conditions and the same initial state
produce identical results and identical final states. -/
theorem solve_deterministic (a b : EquilibriumSolver) (sa sb : ChemicalState)
    (ca cb : EquilibriumConditions) (hab : a = b) (hst : sa = sb)
    (hc : ca = cb) : a.solve sa ca = b.solve sb cb := by
  subst hab
  subst hst
  subst hc
  rfl

/-- Witness for C9 on a concrete solver and state. -/
theorem solve_deterministic_witness :
    solverConv = solverConv ∧ s0W = s0W ∧ condsW = condsW ∧
    solverConv.solve s0W condsW = solverConv.solve s0W condsW :=
  ⟨rfl, rfl, rfl,
   solve_deterministic solverConv solverConv s0W s0W condsW condsW rfl rfl rfl⟩

/-- C10: the fugacity and pH setters accept a bare value — the optional unit
defaults to "bar" for fugacity and to the empty (dimensionless) unit for pH —
while temperature and pressure are bound with explicit unit strings; each call
binds successfully at its declared position. -/
theorem conditions_setter_units (c d ct cp : EquilibriumConditions)
    (name : String) (v w t p : ℚ)
    (hf : c.nextKind = some (.fugacity name)) (hv : 0 < v)
    (hdp : d.nextKind = some .pH)
    (htk : ct.nextKind = some .temperature) (ht : 0 < t)
    (hpk : cp.nextKind = some .pressure) (hp : 0 < p) :
    EquilibriumConditions.fugacity c name v none = .ok (c.pushBound v "bar") ∧
    EquilibriumConditions.pH d w none = .ok (d.pushBound w "") ∧
    EquilibriumConditions.temperature ct t "kelvin" =
      .ok (ct.pushBound t "kelvin") ∧
    EquilibriumConditions.pressure cp p "Pa" = .ok (cp.pushBound p "Pa") := by
  refine ⟨?_, ?_, ?_, ?_⟩
  · simp [EquilibriumConditions.fugacity, not_le.mpr hv, hf]
  · simp [EquilibriumConditions.pH, hdp]
  · simp [EquilibriumConditions.temperature, not_le.mpr ht, htk]
  · simp [EquilibriumConditions.pressure, not_le.mpr hp, hpk]

/-- Witness for C10 on conditions mirroring the script's declaration order. -/
theorem conditions_setter_units_witness :
    condsW4f.nextKind = some (.fugacity "O2(g)") ∧
    (0 : ℚ) < 1 / 100000 ∧
    condsW4p.nextKind = some ConstraintKind.pH ∧
    (EquilibriumConditions.init specsW4).nextKind =
      some ConstraintKind.temperature ∧
    (0 : ℚ) < scriptT ∧
    EquilibriumConditions.fugacity condsW4f "O2(g)" (1 / 100000) none =
      .ok (condsW4f.pushBound (1 / 100000) "bar") ∧
    EquilibriumConditions.pH condsW4p scriptPH none =
      .ok (condsW4p.pushBound scriptPH "") ∧
    EquilibriumConditions.temperature (EquilibriumConditions.init specsW4)
      scriptT "kelvin" =
      .ok ((EquilibriumConditions.init specsW4).pushBound scriptT "kelvin") := by
  have h := conditions_setter_units condsW4f condsW4p
    (EquilibriumConditions.init specsW4)
    ⟨specsW4, [(483.15, "kelvin")]⟩ "O2(g)" (1 / 100000) scriptPH scriptT 1906000
    (by decide) (by norm_num) (by decide) (by decide)
    (by norm_num [scriptT]) (by decide) (by norm_num)
  exact ⟨by decide, by norm_num, by decide, by decide, by norm_num [scriptT],
    h.1, h.2.1, h.2.2.1⟩

/-- Combined residual of the immediately-converging fixture solver vanishes on
any state measured against itself. -/
theorem combinedResid_convZero (conds : EquilibriumConditions)
    (s : ChemicalState) : combinedResid solverConv conds s s = 0 := by
  unfold combinedResid
  rw [massBalanceResidual_self]
  show max 0 (residZero conds s) = 0
  simp [residZero]

/-- Combined residual of the stuck fixture solver equals one on any state
measured against itself. -/
theorem combinedResid_stuckSelf (conds : EquilibriumConditions)
    (s : ChemicalState) : combinedResid solverStuck conds s s = 1 := by
  unfold combinedResid
  rw [massBalanceResidual_self]
  show max 0 (residOne conds s) = 1
  simp [residOne]

/-- Combined residual of the aborting fixture solver equals one on any state
measured against itself. -/
theorem combinedResid_abortSelf (conds : EquilibriumConditions)
    (s : ChemicalState) : combinedResid solverAbort conds s s = 1 := by
  unfold combinedResid
  rw [massBalanceResidual_self]
  show max 0 (residOne conds s) = 1
  simp [residOne]

/-- Evaluation helper: with budget remaining and the initial residual already
below tolerance, solve converges immediately on the initial state. -/
theorem solve_eval_conv (mi : Nat) (solver : EquilibriumSolver)
    (s0 : ChemicalState) (conds : EquilibriumConditions)
    (hcomplete : conds.bound.length = conds.specs.kinds.length)
    (hfuel : solver.maxIters = mi + 1)
    (hres : combinedResid solver conds s0 s0 ≤ solver.tol) :
    solver.solve s0 conds =
      (.ok ⟨true, 0, combinedResid solver conds s0 s0, ""⟩, s0) := by
  unfold EquilibriumSolver.solve
  rw [if_neg (by simp [hcomplete]), hfuel]
  exact newtonLoop_conv _ _ _ mi s0 0 hres

/-- Evaluation helper: with budget remaining, an above-tolerance initial
residual and a failing first step, solve aborts with the declared numerical
error and hands back the initial state. -/
theorem solve_eval_abort (mi : Nat) (m : String) (solver : EquilibriumSolver)
    (s0 : ChemicalState) (conds : EquilibriumConditions)
    (hcomplete : conds.bound.length = conds.specs.kinds.length)
    (hfuel : solver.maxIters = mi + 1)
    (hres : solver.tol < combinedResid solver conds s0 s0)
    (hstep : solver.step conds s0 = .error m) :
    solver.solve s0 conds = (.error (.numericalError m), s0) := by
  unfold EquilibriumSolver.solve
  rw [if_neg (by simp [hcomplete]), hfuel]
  simp only [newtonLoop, if_neg (not_le.mpr hres), hstep]

/-- Evaluation of the immediately-converging fixture solve. -/
theorem solverConv_solve_eval :
    solverConv.solve s0W condsW = (.ok ⟨true, 0, 0, ""⟩, s0W) := by
  have h := solve_eval_conv 0 solverConv s0W condsW rfl rfl
    (le_of_eq (combinedResid_convZero condsW s0W))
  rw [combinedResid_convZero] at h
  exact h

/-- Evaluation of the aborting fixture solve. -/
theorem solverAbort_solve_eval :
    solverAbort.solve s0W condsW =
      (.error (.numericalError "IllConditioned"), s0W) := by
  refine solve_eval_abort 0 "IllConditioned" solverAbort s0W condsW rfl rfl ?_ rfl
  rw [combinedResid_abortSelf]
  show (0 : ℚ) < 1
  norm_num

/-- C2: for every solver/conditions pair that passed construction-time
validation, `solve` (a total function — termination is by construction) returns
a result: success with the residual norm below tolerance, failure with
diagnostics, or the declared `NumericalError` of the spec's taxonomy — never an
undeclared exception. -/
theorem solve_terminates_total (solver : EquilibriumSolver) (s0 : ChemicalState)
    (conds : EquilibriumConditions)
    (_hbuild : EquilibriumSpecs.build conds.specs.system conds.specs.kinds =
      .ok conds.specs)
    (hcomplete : conds.bound.length = conds.specs.kinds.length) :
    (∃ r sF, solver.solve s0 conds = (.ok r, sF) ∧
      ((r.succeeded = true ∧ r.residual ≤ solver.tol) ∨
       (r.succeeded = false ∧ r.diagnostics ≠ ""))) ∨
    (∃ m sF, solver.solve s0 conds = (.error (.numericalError m), sF)) := by
  have hc : ¬ (conds.bound.length ≠ conds.specs.kinds.length) := by
    simp [hcomplete]
  unfold EquilibriumSolver.solve
  rw [if_neg hc]
  rcases hp : newtonLoop (solver.step conds) (combinedResid solver conds s0)
      solver.tol solver.maxIters s0 0 with ⟨out, sF⟩
  cases out with
  | ok r =>
    left
    refine ⟨r, sF, rfl, ?_⟩
    rcases newtonLoop_ok _ _ _ _ _ _ _ _ hp with ⟨h1, h2, h3, _⟩ | ⟨h1, h2⟩
    · exact Or.inl ⟨h1, h2 ▸ h3⟩
    · exact Or.inr ⟨h1, by rw [h2]; simp⟩
  | error e =>
    obtain ⟨m, hm, _⟩ := newtonLoop_error _ _ _ _ _ _ _ _ hp
    right
    exact ⟨m, sF, by rw [hm]⟩

/-- Witness for C2 on a validated two-species configuration. -/
theorem solve_terminates_total_witness :
    EquilibriumSpecs.build condsW.specs.system condsW.specs.kinds =
      .ok condsW.specs ∧
    condsW.bound.length = condsW.specs.kinds.length ∧
    ((∃ r sF, solverConv.solve s0W condsW = (.ok r, sF) ∧
       ((r.succeeded = true ∧ r.residual ≤ solverConv.tol) ∨
        (r.succeeded = false ∧ r.diagnostics ≠ ""))) ∨
     (∃ m sF, solverConv.solve s0W condsW = (.error (.numericalError m), sF))) :=
  ⟨by rfl, rfl, solve_terminates_total solverConv s0W condsW (by rfl) rfl⟩

/-- C3: whenever `solve` reports success, every element's total at the final
state matches the total implied by the initial state — the mass-balance
right-hand side is fixed from the initial state's element totals — within the
solver tolerance. -/
theorem solve_mass_conservation (solver : EquilibriumSolver) (s0 : ChemicalState)
    (conds : EquilibriumConditions) (r : EquilibriumResult) (sF : ChemicalState)
    (h : solver.solve s0 conds = (.ok r, sF)) (hs : r.succeeded = true) :
    ∀ e ∈ solver.specs.system.elements,
      |elementTotal solver.specs.system sF e -
        elementTotal solver.specs.system s0 e| ≤ solver.tol := by
  unfold EquilibriumSolver.solve at h
  by_cases hc : conds.bound.length ≠ conds.specs.kinds.length
  · rw [if_pos hc] at h
    simp at h
  · rw [if_neg hc] at h
    rcases newtonLoop_ok _ _ _ _ _ _ _ _ h with ⟨_, _, h3, _⟩ | ⟨h1, _⟩
    · intro e he
      refine le_trans (elementDefect_le_massBalanceResidual _ _ _ _ he)
        (le_trans ?_ h3)
      unfold combinedResid
      exact le_max_left _ _
    · rw [h1] at hs
      simp at hs

/-- Witness for C3: a successful solve on the two-species system, where the
element defects of the returned state are within tolerance. -/
theorem solve_mass_conservation_witness :
    solverConv.solve s0W condsW = (.ok ⟨true, 0, 0, ""⟩, s0W) ∧
    (⟨true, 0, 0, ""⟩ : EquilibriumResult).succeeded = true ∧
    ∀ e ∈ solverConv.specs.system.elements,
      |elementTotal solverConv.specs.system s0W e -
        elementTotal solverConv.specs.system s0W e| ≤ solverConv.tol :=
  ⟨solverConv_solve_eval, rfl,
   solve_mass_conservation solverConv s0W condsW ⟨true, 0, 0, ""⟩ s0W
     solverConv_solve_eval rfl⟩

/-- C4: when the iteration budget is exhausted while every reachable iterate
stays above tolerance, `solve` does not raise: it returns an ok
`EquilibriumResult` with the success flag false and a diagnostic message, so
non-convergence is observed only through the result. -/
theorem solve_budget_exhaustion (solver : EquilibriumSolver) (s0 : ChemicalState)
    (conds : EquilibriumConditions)
    (hcomplete : conds.bound.length = conds.specs.kinds.length)
    (H : ∀ j, j ≤ solver.maxIters →
      ∃ t, iterates (solver.step conds) s0 j = some t ∧
        solver.tol < combinedResid solver conds s0 t) :
    ∃ sF, iterates (solver.step conds) s0 solver.maxIters = some sF ∧
      solver.solve s0 conds =
        (.ok ⟨false, solver.maxIters, combinedResid solver conds s0 sF,
          "iteration budget exhausted"⟩, sF) := by
  have hc : ¬ (conds.bound.length ≠ conds.specs.kinds.length) := by
    simp [hcomplete]
  unfold EquilibriumSolver.solve
  rw [if_neg hc]
  obtain ⟨sF, h1, h2⟩ := newtonLoop_exhaust (solver.step conds)
    (combinedResid solver conds s0) solver.tol solver.maxIters s0 0 H
  refine ⟨sF, h1, ?_⟩
  rw [h2]
  norm_num

/-- Witness for C4: a solver whose residual never meets tolerance within its
budget still returns a flagged result. -/
theorem solve_budget_exhaustion_witness :
    condsW.bound.length = condsW.specs.kinds.length ∧
    ∃ sF, iterates (solverStuck.step condsW) s0W solverStuck.maxIters = some sF ∧
      solverStuck.solve s0W condsW =
        (.ok ⟨false, solverStuck.maxIters,
          combinedResid solverStuck condsW s0W sF,
          "iteration budget exhausted"⟩, sF) :=
  ⟨rfl, solve_budget_exhaustion solverStuck s0W condsW rfl (by
    intro j hj
    have hj0 : j = 0 := Nat.le_zero.mp hj
    subst hj0
    refine ⟨s0W, rfl, ?_⟩
    rw [combinedResid_stuckSelf]
    show (0 : ℚ) < 1
    norm_num)⟩

/-- C6: if a solve aborts with `NumericalError`, the returned state is exactly
one of the genuine iterates — the last one every step reached successfully —
and the failing step left it untouched; no field of the caller's state is
partially updated, and nothing outside the current solve is affected. -/
theorem solve_numerical_abort (solver : EquilibriumSolver) (s0 : ChemicalState)
    (conds : EquilibriumConditions) (m : String) (sF : ChemicalState)
    (h : solver.solve s0 conds = (.error (.numericalError m), sF)) :
    ∃ j, j ≤ solver.maxIters ∧ iterates (solver.step conds) s0 j = some sF ∧
      solver.step conds sF = .error m := by
  unfold EquilibriumSolver.solve at h
  by_cases hc : conds.bound.length ≠ conds.specs.kinds.length
  · rw [if_pos hc] at h
    simp at h
  · rw [if_neg hc] at h
    obtain ⟨m2, hm2, j, hj, hit, hstep⟩ := newtonLoop_error _ _ _ _ _ _ _ _ h
    have hm : m2 = m := by
      injection hm2 with h2
      exact h2.symm
    subst hm
    exact ⟨j, hj, hit, hstep⟩

/-- Witness for C6: a solver whose first step fails numerically hands back the
unmodified initial state as the last valid iterate. -/
theorem solve_numerical_abort_witness :
    solverAbort.solve s0W condsW =
      (.error (.numericalError "IllConditioned"), s0W) ∧
    ∃ j, j ≤ solverAbort.maxIters ∧
      iterates (solverAbort.step condsW) s0W j = some s0W ∧
      solverAbort.step condsW s0W = .error "IllConditioned" :=
  ⟨solverAbort_solve_eval,
   solve_numerical_abort solverAbort s0W condsW "IllConditioned" s0W
     solverAbort_solve_eval⟩

/-- C7: re-solving from a converged state with unchanged conditions converges
immediately — zero additional iterations, hence at most one — and returns the
very same state, so the amounts agree exactly with the previous result. -/
theorem solve_idempotent (solver : EquilibriumSolver) (s0 : ChemicalState)
    (conds : EquilibriumConditions) (r : EquilibriumResult) (sF : ChemicalState)
    (h : solver.solve s0 conds = (.ok r, sF)) (hs : r.succeeded = true)
    (htol : 0 ≤ solver.tol) :
    solver.solve sF conds =
      (.ok ⟨true, 0, combinedResid solver conds sF sF, ""⟩, sF) ∧
    combinedResid solver conds sF sF ≤ solver.tol := by
  unfold EquilibriumSolver.solve at h ⊢
  by_cases hc : conds.bound.length ≠ conds.specs.kinds.length
  · rw [if_pos hc] at h
    simp at h
  · rw [if_neg hc] at h ⊢
    rcases newtonLoop_ok _ _ _ _ _ _ _ _ h with ⟨_, _, h3, _⟩ | ⟨h1, _⟩
    · have hspec : solver.specResid conds sF ≤ solver.tol := by
        refine le_trans ?_ h3
        unfold combinedResid
        exact le_max_right _ _
      have hresF : combinedResid solver conds sF sF ≤ solver.tol := by
        unfold combinedResid
        rw [massBalanceResidual_self]
        exact max_le htol hspec
      cases hmi : solver.maxIters with
      | zero =>
        exfalso
        rw [hmi] at h
        simp only [newtonLoop, Prod.mk.injEq, Except.ok.injEq] at h
        rw [← h.1] at hs
        simp at hs
      | succ mi =>
        exact ⟨newtonLoop_conv _ _ _ mi sF 0 hresF, hresF⟩
    · rw [h1] at hs
      simp at hs

/-- Witness for C7: re-solving the already-converged two-species state. -/
theorem solve_idempotent_witness :
    solverConv.solve s0W condsW = (.ok ⟨true, 0, 0, ""⟩, s0W) ∧
    (0 : ℚ) ≤ solverConv.tol ∧
    (solverConv.solve s0W condsW =
       (.ok ⟨true, 0, combinedResid solverConv condsW s0W s0W, ""⟩, s0W) ∧
     combinedResid solverConv condsW s0W s0W ≤ solverConv.tol) :=
  ⟨solverConv_solve_eval, le_refl _,
   solve_idempotent solverConv s0W condsW ⟨true, 0, 0, ""⟩ s0W
     solverConv_solve_eval rfl (le_refl _)⟩

/-- A list of zeros reads zero at every position. -/
theorem getD_replicate_zero : ∀ (k i : Nat),
    (List.replicate k (0 : ℚ)).getD i 0 = 0 := by
  intro k
  induction k with
  | zero => intro i; simp
  | succ k ih =>
    intro i
    cases i with
    | zero => simp [List.replicate]
    | succ i =>
      simp only [List.replicate, List.getD_cons_succ]
      exact ih i

/-- Reading back the position just written returns the written value. -/
theorem getD_set_self : ∀ (l : List ℚ) (i : Nat) (a : ℚ), i < l.length →
    (l.set i a).getD i 0 = a := by
  intro l
  induction l with
  | nil => intro i a h; simp at h
  | cons x xs ih =>
    intro i a h
    cases i with
    | zero => simp
    | succ i =>
      simp only [List.set_cons_succ, List.getD_cons_succ]
      exact ih i a (by simpa using h)

/-- C8: `ChemicalState.add` with unit "kg" converts the mass to moles through
the species molar mass: adding 1 kg of a species to a fresh state leaves its
internal amount at exactly `1000 / molarMass` moles. -/
theorem add_kg_molar_conversion (sys : ChemicalSystem) (name : String) (i : Nat)
    (sp : Species) (hi : sys.index name = some i)
    (hsp : sys.species.get? i = some sp) (hM : 0 < sp.molarMass) :
    ∃ st2, ChemicalState.add sys (ChemicalState.init sys) name 1 "kg" = .ok st2 ∧
      st2.n.getD i 0 = 1000 / sp.molarMass := by
  have hlen : i < sys.species.length := by
    rcases List.get?_eq_some.mp hsp with ⟨hl, _⟩
    exact hl
  have hmoles : amountToMoles sp.molarMass "kg" 1 =
      .ok (1 * 1000 / sp.molarMass) := by
    simp [amountToMoles]
  have hamt : (ChemicalState.init sys).n.getD i 0 + 1 * 1000 / sp.molarMass =
      1000 / sp.molarMass := by
    simp [ChemicalState.init, getD_replicate_zero]
  have hpos : ¬ ((ChemicalState.init sys).n.getD i 0 + 1 * 1000 / sp.molarMass < 0) := by
    rw [hamt]
    exact not_lt.mpr (le_of_lt (div_pos (by norm_num) hM))
  refine ⟨⟨(ChemicalState.init sys).n.set i
      ((ChemicalState.init sys).n.getD i 0 + 1 * 1000 / sp.molarMass),
      (ChemicalState.init sys).T, (ChemicalState.init sys).P⟩, ?_, ?_⟩
  · simp only [ChemicalState.add, hi, hsp, hmoles]
    rw [if_neg hpos]
  · show ((ChemicalState.init sys).n.set i _).getD i 0 = _
    rw [getD_set_self _ _ _ (by simpa [ChemicalState.init] using hlen), hamt]

/-- Witness for C8: adding 1 kg of water ("H2O@", molar mass 18.015 g/mol) to a
fresh state of the small system yields 1000/18.015 moles exactly. -/
theorem add_kg_molar_conversion_witness :
    sysW.index "H2O@" = some 0 ∧
    sysW.species.get? 0 =
      some ⟨"H2O@", "AqueousPhase", [("H", 2), ("O", 1)], 0, 18.015⟩ ∧
    (0 : ℚ) < 18.015 ∧
    ∃ st2, ChemicalState.add sysW (ChemicalState.init sysW) "H2O@" 1 "kg" =
        .ok st2 ∧
      st2.n.getD 0 0 = 1000 / 18.015 :=
  ⟨rfl, rfl, by norm_num,
   add_kg_molar_conversion sysW "H2O@" 0
     ⟨"H2O@", "AqueousPhase", [("H", 2), ("O", 1)], 0, 18.015⟩
     rfl rfl (by norm_num)⟩
